import Mathlib

/-!
Verification of the TypeScript SAM local-debug helper
(`src/shared/sam/debugger/typescriptSamDebug.ts`) and of the SAM
integration-test harness scenario matrix, as a shallow embedding in Lean.

Conventions of the embedding:
* TypeScript values that may be `undefined` are modelled as `Option`.
* JavaScript string truthiness (`!s` is true for `undefined` and `''`)
  is modelled by `strTruthy`.
* Functions that `throw` are modelled in `Except String`.
* External calls (path normalization, `makeInputTemplate`,
  `isImageLambdaConfig`, project-root discovery) are parameters of an
  environment record `Env`, so theorems quantify over their behaviour.
* The filesystem, used by `compileTypeScript` and
  `hasTypeScriptFilesRecursive`, is a finite tree of named entries.
-/

/-- JavaScript truthiness of a `string | undefined` value: falsy iff
`undefined` or the empty string. -/
def strTruthy : Option String → Bool
  | none => false
  | some s => !(s == "")

/-- Rendering of a `number | undefined` inside a template literal:
`undefined` prints as the string `"undefined"`. -/
def optNatToString : Option Nat → String
  | none => "undefined"
  | some n => toString n

/-- Model of `path.join` on two segments. -/
def pathJoin (a b : String) : String := a ++ "/" ++ b

/-- `RuntimeFamily` from `lambda/models/samLambdaRuntime`. -/
inductive RuntimeFamily : Type where
  | NodeJS
  | Python
  | DotNetCore
deriving DecidableEq, Repr

/-- One entry of `config.lambda.pathMappings`. -/
structure PathMapping where
  localRoot : String
  remoteRoot : String
deriving DecidableEq, Repr

/-- The `lambda` section of a SAM debug configuration (the fields used by
`typescriptSamDebug.ts`). -/
structure LambdaSection where
  pathMappings : Option (List PathMapping) := none
deriving DecidableEq, Repr

/-- The `invokeTarget` section of a SAM debug configuration. -/
structure InvokeTarget where
  target : String
deriving DecidableEq, Repr

/-- The fields of `SamLaunchRequestArgs` read by `makeTypescriptConfig`. -/
structure SamLaunchRequestArgs where
  baseBuildDir : Option String := none
  codeRoot : Option String := none
  templatePath : Option String := none
  documentUri : Option String := none
  noDebug : Option Bool := none
  debugPort : Option Nat := none
  stopOnEntry : Option Bool := none
  lambda : Option LambdaSection := none
  containerEnvVars : Option String := none
  invokeTarget : InvokeTarget
deriving DecidableEq, Repr

/-- The launch configuration produced by `makeTypescriptConfig`
(`NodejsDebugConfiguration`): the generic config fields composed by
`...config` together with the node-specific overrides. -/
structure NodejsDebugConfiguration where
  baseBuildDir : Option String
  codeRoot : String
  templatePath : String
  noDebug : Option Bool
  debugPort : Option Nat
  lambda : Option LambdaSection
  invokeTarget : InvokeTarget
  containerEnvVars : Option String
  type : String
  request : String
  runtimeFamily : RuntimeFamily
  preLaunchTask : Option String
  address : String
  port : Int
  localRoot : String
  remoteRoot : String
  protocol : String
  stopOnEntry : Bool
  skipFiles : List String
deriving DecidableEq, Repr

/-- Behaviour of the external helpers called by `makeTypescriptConfig`:
`pathutil.normalize`, `makeInputTemplate` (the generated temporary
template path), `isImageLambdaConfig`, and `getSamProjectDirPathForFile`
style project-root discovery (which may throw). -/
structure Env where
  normalize : String → String
  inputTemplatePath : String
  isImageLambda : Bool
  projectDir : String → Except String String

/-- Lines 54-64 of `typescriptSamDebug.ts`: when `config.codeRoot` is
falsy, discover the project root from `templatePath ?? documentUri`,
normalize it, and throw when the result is still falsy; otherwise keep
`config.codeRoot`. -/
def resolveCodeRoot (env : Env) (config : SamLaunchRequestArgs) : Except String String :=
  if strTruthy config.codeRoot then
    .ok (config.codeRoot.getD "")
  else
    match env.projectDir (config.templatePath.getD (config.documentUri.getD "")) with
    | .error e => .error e
    | .ok d =>
      let n := env.normalize d
      if n == "" then
        .error "missing launch.json, template.yaml, and failed to discover project root"
      else
        .ok n

/-- The first entry of `config.lambda.pathMappings`, when that list is
defined and non-empty (lines 81-90). -/
def firstPathMapping (config : SamLaunchRequestArgs) : Option PathMapping :=
  match config.lambda with
  | none => none
  | some l =>
    match l.pathMappings with
    | some (m :: _) => some m
    | _ => none

/-- `makeTypescriptConfig` (lines 50-111 of `typescriptSamDebug.ts`). -/
def makeTypescriptConfig (env : Env) (config : SamLaunchRequestArgs) :
    Except String NodejsDebugConfiguration :=
  if !strTruthy config.baseBuildDir then
    .error "invalid state: config.baseBuildDir was not set"
  else
    match resolveCodeRoot env config with
    | .error e => .error e
    | .ok codeRoot0 =>
      let codeRoot := env.normalize codeRoot0
      let templatePath := env.inputTemplatePath
      let containerEnvVars :=
        if env.isImageLambda && !(config.noDebug.getD false) then
          some ("--inspect-brk=0.0.0.0:" ++ optNatToString config.debugPort ++
            " --max-http-header-size 81920")
        else
          config.containerEnvVars
      let localRoot? := (firstPathMapping config).map (·.localRoot)
      let remoteRoot? := (firstPathMapping config).map (·.remoteRoot)
      .ok {
        baseBuildDir := config.baseBuildDir
        codeRoot := codeRoot
        templatePath := templatePath
        noDebug := config.noDebug
        debugPort := config.debugPort
        lambda := config.lambda
        invokeTarget := config.invokeTarget
        containerEnvVars := containerEnvVars
        type := "node"
        request := if config.noDebug.getD false then "launch" else "attach"
        runtimeFamily := RuntimeFamily.NodeJS
        preLaunchTask := none
        address := "localhost"
        port := (config.debugPort.map (Int.ofNat)).getD (-1)
        localRoot := localRoot?.getD codeRoot
        remoteRoot := remoteRoot?.getD "/var/task"
        protocol := "inspector"
        stopOnEntry := match config.stopOnEntry with | none => false | some b => b
        skipFiles := ["/var/runtime/node_modules/**/*.js", "<node_internals>/**/*.js"]
      }

mutual
/-- A filesystem entry: a plain file or a directory with its listing. -/
inductive FsTree : Type where
  | file : String → FsTree
  | dir : String → FsList → FsTree
/-- A directory listing (a list of filesystem entries). -/
inductive FsList : Type where
  | nil : FsList
  | cons : FsTree → FsList → FsList
end

/-- The name of a filesystem entry. -/
def FsTree.name : FsTree → String
  | .file n => n
  | .dir n _ => n

/-- `file.substr(-3) === '.ts'` (line 124): the last three characters of
the name (the whole name when shorter) equal `.ts`. -/
def endsInTs (s : String) : Bool :=
  decide (s.data.drop (s.data.length - 3) = ['.', 't', 's'])

mutual
/-- The directory-descent step of `hasTypeScriptFilesRecursive`
(lines 128-132): a file contributes nothing here; a directory is
searched recursively. -/
def hasTsInTree : FsTree → Bool
  | .file _ => false
  | .dir _ sub => hasTypeScriptFilesRecursive sub
/-- `hasTypeScriptFilesRecursive` (lines 118-135): scan the listing; an
entry whose name ends in `.ts` succeeds immediately (before the entry is
tested for being a directory); otherwise directories are searched
recursively; return `false` when the listing is exhausted. -/
def hasTypeScriptFilesRecursive : FsList → Bool
  | .nil => false
  | .cons e rest =>
    if endsInTs e.name then true
    else if hasTsInTree e then true
    else hasTypeScriptFilesRecursive rest
end

mutual
/-- Names of all entries strictly below a filesystem entry. -/
def treeSubNames : FsTree → List String
  | .file _ => []
  | .dir _ sub => listNames sub
/-- Names of all entries, at any depth, of a directory listing. -/
def listNames : FsList → List String
  | .nil => []
  | .cons e rest => (e.name :: treeSubNames e) ++ listNames rest
end

/-- Top-level names of a directory listing (`readdir`). -/
def fsNames : FsList → List String
  | .nil => []
  | .cons e rest => e.name :: fsNames rest

/-- The actions performed by `compileTypeScript`: the tsconfig file it
wrote (path and contents) and the subprocess command line it ran, when
any. -/
structure CompileEffects where
  wroteTsconfig : Option (String × String)
  ranCommand : Option String
deriving DecidableEq, Repr

/-- `JSON.stringify` of the default tsconfig object of lines 148-161. -/
def defaultTsconfigJson : String :=
  "\x7b\"compilerOptions\":\x7b\"target\":\"es6\",\"module\":\"commonjs\"," ++
  "\"typeRoots\":[\"node_modules/@types\"],\"types\":[\"node\"]," ++
  "\"rootDir\":\".\",\"sourceMap\":true\x7d\x7d"

/-- `compileTypeScript` (lines 141-173 of `typescriptSamDebug.ts`).
`fs` is the directory listing of `config.codeRoot`; `writeOk` is whether
`writeFileSync` succeeds and `tscOk` whether the `tsc` subprocess
succeeds. Returns the effects performed together with the result
(`error` models the `throw`). -/
def compileTypeScript (writeOk tscOk : Bool) (fs : FsList)
    (config : NodejsDebugConfiguration) : CompileEffects × Except String Unit :=
  if config.invokeTarget.target == "code" then
    let samBuildOutputAppRoot :=
      pathJoin (pathJoin (config.baseBuildDir.getD "") "output") "awsToolkitSamLocalResource"
    let tsconfigPath := pathJoin samBuildOutputAppRoot "tsconfig.json"
    if (fsNames fs).contains "tsconfig.json" || hasTypeScriptFilesRecursive fs then
      let compileCommand := "tsc --project " ++ samBuildOutputAppRoot
      if writeOk then
        if tscOk then
          (⟨some (tsconfigPath, defaultTsconfigJson), some compileCommand⟩, .ok ())
        else
          (⟨some (tsconfigPath, defaultTsconfigJson), some compileCommand⟩,
            .error "Failed to compile typescript Lambda")
      else
        (⟨none, none⟩, .error "Failed to compile typescript Lambda")
    else
      (⟨none, none⟩, .ok ())
  else
    (⟨none, none⟩, .ok ())

/-- The parent directories of a path (given as its list of components),
nearest first, ending with the root `[]`. -/
def parentDirs : List String → List (List String)
  | [] => []
  | p@(_ :: _) => p.dropLast :: parentDirs p.dropLast
termination_by p => p.length
decreasing_by simp_all [List.length_dropLast]

/-- Modelled from the spec: `findParentProjectFile` (from
`shared/utilities/workspaceUtils`, not among the provided sources) as
called with the pattern `/^package\.json$/`: it returns the path of the
file named exactly `package.json` in the nearest parent directory of the
given file, or `none` when no parent directory contains one. `listing`
maps a directory path to its entry names; `filePath` is the file's path
as components. -/
def findParentProjectFile (listing : List String → List String)
    (filePath : List String) : Option (List String) :=
  match (parentDirs filePath).find? (fun d => (listing d).contains "package.json") with
  | some d => some (d ++ ["package.json"])
  | none => none

/-- `getSamProjectDirPathForFile` (lines 35-42 of
`typescriptSamDebug.ts`): `path.dirname` of the found `package.json`
path, or a throw naming the file. -/
def getSamProjectDirPathForFile (listing : List String → List String)
    (filePath : List String) : Except String (List String) :=
  match findParentProjectFile listing filePath with
  | none => .error ("Cannot find package.json for: " ++ String.intercalate "/" filePath)
  | some p => .ok p.dropLast

/-- A scenario of the integration test matrix (`TestScenario`). -/
structure TestScenario where
  displayName : String
  runtime : String
  baseImage : Option String := none
  path : String
  debugSessionType : String
  language : String
  dependencyManager : String
deriving DecidableEq, Repr

/-- The `scenarios` array (lines 48-217 of the integration test file). -/
def scenarios : List TestScenario := [
  { runtime := "nodejs10.x", displayName := "nodejs10.x (ZIP)",
    path := "hello-world/app.js", debugSessionType := "pwa-node",
    language := "javascript", dependencyManager := "npm" },
  { runtime := "nodejs12.x", displayName := "nodejs12.x (ZIP)",
    path := "hello-world/app.js", debugSessionType := "pwa-node",
    language := "javascript", dependencyManager := "npm" },
  { runtime := "nodejs14.x", displayName := "nodejs14.x (ZIP)",
    path := "hello-world/app.js", debugSessionType := "pwa-node",
    language := "javascript", dependencyManager := "npm" },
  { runtime := "python2.7", displayName := "python2.7 (ZIP)",
    path := "hello_world/app.py", debugSessionType := "python",
    language := "python", dependencyManager := "pip" },
  { runtime := "python3.6", displayName := "python3.6 (ZIP)",
    path := "hello_world/app.py", debugSessionType := "python",
    language := "python", dependencyManager := "pip" },
  { runtime := "python3.7", displayName := "python3.7 (ZIP)",
    path := "hello_world/app.py", debugSessionType := "python",
    language := "python", dependencyManager := "pip" },
  { runtime := "python3.8", displayName := "python3.8 (ZIP)",
    path := "hello_world/app.py", debugSessionType := "python",
    language := "python", dependencyManager := "pip" },
  { runtime := "java8", displayName := "java8 (Gradle ZIP)",
    path := "HelloWorldFunction/src/main/java/helloworld/App.java",
    debugSessionType := "java", language := "java", dependencyManager := "gradle" },
  { runtime := "java8.al2", displayName := "java8.al2 (Maven ZIP)",
    path := "HelloWorldFunction/src/main/java/helloworld/App.java",
    debugSessionType := "java", language := "java", dependencyManager := "maven" },
  { runtime := "java11", displayName := "java11 (Gradle ZIP)",
    path := "HelloWorldFunction/src/main/java/helloworld/App.java",
    debugSessionType := "java", language := "java", dependencyManager := "gradle" },
  { runtime := "nodejs10.x", displayName := "nodejs10.x (Image)",
    baseImage := some "amazon/nodejs10.x-base", path := "hello-world/app.js",
    debugSessionType := "pwa-node", language := "javascript", dependencyManager := "npm" },
  { runtime := "nodejs12.x", displayName := "nodejs12.x (Image)",
    baseImage := some "amazon/nodejs12.x-base", path := "hello-world/app.js",
    debugSessionType := "pwa-node", language := "javascript", dependencyManager := "npm" },
  { runtime := "nodejs14.x", displayName := "nodejs14.x (Image)",
    baseImage := some "amazon/nodejs14.x-base", path := "hello-world/app.js",
    debugSessionType := "pwa-node", language := "javascript", dependencyManager := "npm" },
  { runtime := "python3.6", displayName := "python3.6 (Image)",
    baseImage := some "amazon/python3.6-base", path := "hello_world/app.py",
    debugSessionType := "python", language := "python", dependencyManager := "pip" },
  { runtime := "python3.7", displayName := "python3.7 (Image)",
    baseImage := some "amazon/python3.7-base", path := "hello_world/app.py",
    debugSessionType := "python", language := "python", dependencyManager := "pip" },
  { runtime := "java8", displayName := "java8 (Maven Image)",
    path := "HelloWorldFunction/src/main/java/helloworld/App.java",
    baseImage := some "amazon/java8-base", debugSessionType := "java",
    language := "java", dependencyManager := "maven" },
  { runtime := "java8.al2", displayName := "java8.al2 (Gradle Image)",
    path := "HelloWorldFunction/src/main/java/helloworld/App.java",
    baseImage := some "amazon/java8.al2-base", debugSessionType := "java",
    language := "java", dependencyManager := "gradle" },
  { runtime := "java11", displayName := "java11 (Maven Image)",
    path := "HelloWorldFunction/src/main/java/helloworld/App.java",
    baseImage := some "amazon/java11-base", debugSessionType := "java",
    language := "java", dependencyManager := "maven" }
]

/-- The invocations the harness makes per scenario: for every scenario
of the matrix, the suite registers one `target=api` test and one
`target=template` test (lines 418-419 and 557-579). -/
def harnessRuns : List (TestScenario × String) :=
  scenarios.flatMap (fun s => [(s, "api"), (s, "template")])

/-- The fields of a `vscode.DebugSession`'s `configuration` read by the
validator (both may be absent on the untyped configuration object). -/
structure DebugSessionConfig where
  name : Option String
  runtime : Option String
deriving DecidableEq, Repr

/-- A `vscode.DebugSession` as seen by the validator. -/
structure DebugSession where
  configuration : DebugSessionConfig
deriving DecidableEq, Repr

/-- A rendering of a debug session standing for `JSON.stringify` in the
failure message. -/
def stringifySession (s : DebugSession) : String :=
  "\x7b\"configuration\":\x7b\"name\":" ++ toString (repr s.configuration.name) ++
  ",\"runtime\":" ++ toString (repr s.configuration.runtime) ++ "\x7d\x7d"

/-- `validateSamDebugSession` (lines 268-281 of the integration test
file): `none` models the undefined return (no validation issue). -/
def validateSamDebugSession (debugSession : DebugSession)
    (expectedName expectedRuntime : String) : Option String :=
  let runtime := debugSession.configuration.runtime
  let name := debugSession.configuration.name
  if name ≠ some expectedName ∨ runtime ≠ some expectedRuntime then
    some ("Unexpected DebugSession (expected name=\"" ++ expectedName ++
      "\" runtime=\"" ++ expectedRuntime ++ "\"):\n" ++ stringifySession debugSession)
  else
    none

/-- `config.lambda?.pathMappings`, the optional chain of line 81. -/
def pathMappingsOf (config : SamLaunchRequestArgs) : Option (List PathMapping) :=
  config.lambda.bind (fun l => l.pathMappings)

/-- A sample environment for concrete evaluations: identity
normalization, a fixed generated template path, a ZIP (non-image)
lambda, and no discoverable workspace project. -/
def sampleEnv : Env where
  normalize := fun s => s
  inputTemplatePath := "/tmp/aws-toolkit/input/template.yaml"
  isImageLambda := false
  projectDir := fun _ => Except.error "no workspace"

/-- A sample input configuration with `baseBuildDir` and `codeRoot`
set. -/
def sampleConfig : SamLaunchRequestArgs where
  baseBuildDir := some "/tmp/build"
  codeRoot := some "/work/app"
  debugPort := some 5858
  invokeTarget := { target := "code" }

/-- The launch configuration `makeTypescriptConfig` produces from
`sampleEnv` and `sampleConfig`. -/
def sampleOut : NodejsDebugConfiguration where
  baseBuildDir := some "/tmp/build"
  codeRoot := "/work/app"
  templatePath := "/tmp/aws-toolkit/input/template.yaml"
  noDebug := none
  debugPort := some 5858
  lambda := none
  invokeTarget := { target := "code" }
  containerEnvVars := none
  type := "node"
  request := "attach"
  runtimeFamily := RuntimeFamily.NodeJS
  preLaunchTask := none
  address := "localhost"
  port := 5858
  localRoot := "/work/app"
  remoteRoot := "/var/task"
  protocol := "inspector"
  stopOnEntry := false
  skipFiles := ["/var/runtime/node_modules/**/*.js", "<node_internals>/**/*.js"]

/-- A sample input configuration carrying two user path mappings. -/
def sampleMappedConfig : SamLaunchRequestArgs where
  baseBuildDir := some "/tmp/build"
  codeRoot := some "/work/app"
  lambda := some { pathMappings := some [
    { localRoot := "/work/mapped", remoteRoot := "/var/mapped" },
    { localRoot := "/work/other", remoteRoot := "/var/other" }] }
  invokeTarget := { target := "template" }

/-- The launch configuration `makeTypescriptConfig` produces from
`sampleEnv` and `sampleMappedConfig`. -/
def sampleMappedOut : NodejsDebugConfiguration where
  baseBuildDir := some "/tmp/build"
  codeRoot := "/work/app"
  templatePath := "/tmp/aws-toolkit/input/template.yaml"
  noDebug := none
  debugPort := none
  lambda := some { pathMappings := some [
    { localRoot := "/work/mapped", remoteRoot := "/var/mapped" },
    { localRoot := "/work/other", remoteRoot := "/var/other" }] }
  invokeTarget := { target := "template" }
  containerEnvVars := none
  type := "node"
  request := "attach"
  runtimeFamily := RuntimeFamily.NodeJS
  preLaunchTask := none
  address := "localhost"
  port := -1
  localRoot := "/work/mapped"
  remoteRoot := "/var/mapped"
  protocol := "inspector"
  stopOnEntry := false
  skipFiles := ["/var/runtime/node_modules/**/*.js", "<node_internals>/**/*.js"]

/-! ## Helper lemmas -/

theorem firstPathMapping_eq (config : SamLaunchRequestArgs) :
    firstPathMapping config =
      match pathMappingsOf config with
      | some (m :: _) => some m
      | _ => none := by
  unfold firstPathMapping pathMappingsOf
  cases config.lambda with
  | none => rfl
  | some l =>
    cases hl : l.pathMappings with
    | none => rfl
    | some ms => cases ms <;> rfl

theorem endsInTs_iff_suffix (s : String) :
    endsInTs s = true ↔ ['.', 't', 's'] <:+ s.data := by
  unfold endsInTs
  rw [decide_eq_true_iff]
  constructor
  · intro h
    rw [← h]
    exact List.drop_suffix _ _
  · rintro ⟨pre, hpre⟩
    rw [← hpre]
    have hlen : (pre ++ ['.', 't', 's']).length - 3 = pre.length := by simp
    rw [hlen, List.drop_left]

mutual
theorem hasTsInTree_iff (t : FsTree) :
    hasTsInTree t = true ↔ ∃ n, n ∈ treeSubNames t ∧ endsInTs n = true := by
  cases t with
  | file n => simp [hasTsInTree, treeSubNames]
  | dir n sub =>
    simpa [hasTsInTree, treeSubNames] using hasTypeScriptFilesRecursive_iff sub
theorem hasTypeScriptFilesRecursive_iff (fs : FsList) :
    hasTypeScriptFilesRecursive fs = true ↔
      ∃ n, n ∈ listNames fs ∧ endsInTs n = true := by
  cases fs with
  | nil => simp [hasTypeScriptFilesRecursive, listNames]
  | cons e rest =>
    have he := hasTsInTree_iff e
    have hr := hasTypeScriptFilesRecursive_iff rest
    unfold hasTypeScriptFilesRecursive
    simp only [listNames]
    by_cases h1 : endsInTs e.name = true
    · rw [if_pos h1]
      exact iff_of_true rfl ⟨e.name, by simp, h1⟩
    · rw [if_neg h1]
      by_cases h2 : hasTsInTree e = true
      · rw [if_pos h2]
        obtain ⟨n, hn, hts⟩ := he.mp h2
        exact iff_of_true rfl ⟨n, by simp [hn], hts⟩
      · rw [if_neg h2, hr]
        constructor
        · rintro ⟨n, hn, hts⟩
          exact ⟨n, by simp [hn], hts⟩
        · rintro ⟨n, hn, hts⟩
          rcases List.mem_append.mp hn with hn' | hn'
          · rcases List.mem_cons.mp hn' with rfl | hn''
            · exact absurd hts h1
            · exact absurd (he.mpr ⟨n, hn'', hts⟩) h2
          · exact ⟨n, hn', hts⟩
end

/-! ## Claim theorems -/

/-- C9: `hasTypeScriptFilesRecursive` returns `true` on a directory
listing if and only if some entry at any depth below it (directory
entries included, since the name-suffix test of line 124 runs before the
`isDirectory` test of line 128) has a name ending in `.ts`. -/
theorem c9_hasTypeScriptFilesRecursive_iff_deep_ts_name (fs : FsList) :
    hasTypeScriptFilesRecursive fs = true ↔
      ∃ n, n ∈ listNames fs ∧ ['.', 't', 's'] <:+ n.data := by
  simp only [hasTypeScriptFilesRecursive_iff fs, endsInTs_iff_suffix]

/-- C7: `validateSamDebugSession` returns `undefined` (here `none`) if
and only if the session configuration's `name` is the expected name and
its `runtime` is the expected runtime; otherwise (the only other case of
its `Option String` result) it returns a failure-message string. -/
theorem c7_validateSamDebugSession_none_iff (debugSession : DebugSession)
    (expectedName expectedRuntime : String) :
    validateSamDebugSession debugSession expectedName expectedRuntime = none ↔
      (debugSession.configuration.name = some expectedName ∧
        debugSession.configuration.runtime = some expectedRuntime) := by
  unfold validateSamDebugSession
  by_cases h : debugSession.configuration.name = some expectedName ∧
      debugSession.configuration.runtime = some expectedRuntime
  · rw [if_neg]
    · exact iff_of_true rfl h
    · simp [h.1, h.2]
  · rw [if_pos]
    · simp only [reduceCtorEq, false_iff]
      exact h
    · by_contra hc
      push_neg at hc
      exact h ⟨hc.1, hc.2⟩

/-- C10: in the scenario matrix, `debugSessionType` is determined by
`language`: `javascript` scenarios use `pwa-node`, `python` scenarios
use `python`, and `java` scenarios use `java`. -/
theorem c10_debugSessionType_function_of_language :
    ∀ s ∈ scenarios,
      (s.language = "javascript" → s.debugSessionType = "pwa-node") ∧
      (s.language = "python" → s.debugSessionType = "python") ∧
      (s.language = "java" → s.debugSessionType = "java") := by decide

/-- Witness for C10 at the first scenario of the matrix. -/
theorem c10_debugSessionType_function_of_language_witness :
    ({ runtime := "nodejs10.x", displayName := "nodejs10.x (ZIP)",
       path := "hello-world/app.js", debugSessionType := "pwa-node",
       language := "javascript", dependencyManager := "npm" } : TestScenario) ∈ scenarios ∧
    ({ runtime := "nodejs10.x", displayName := "nodejs10.x (ZIP)",
       path := "hello-world/app.js", debugSessionType := "pwa-node",
       language := "javascript", dependencyManager := "npm" } : TestScenario).debugSessionType
      = "pwa-node" :=
  ⟨by decide,
    (c10_debugSessionType_function_of_language _ (by decide)).1 (by decide)⟩

/-- C5: the scenario matrix contains `javascript`, `python` and `java`
scenarios both without a `baseImage` (ZIP) and with one (Image); every
one of the ten listed runtimes appears in some scenario; and the harness
runs every scenario once with the `api` invoke target and once with the
`template` invoke target. -/
theorem c5_scenario_matrix_coverage :
    (∀ lang ∈ ["javascript", "python", "java"],
      (∃ s ∈ scenarios, s.language = lang ∧ s.baseImage = none) ∧
      (∃ s ∈ scenarios, s.language = lang ∧ s.baseImage ≠ none)) ∧
    (∀ r ∈ ["nodejs10.x", "nodejs12.x", "nodejs14.x", "python2.7", "python3.6",
        "python3.7", "python3.8", "java8", "java8.al2", "java11"],
      ∃ s ∈ scenarios, s.runtime = r) ∧
    (∀ s ∈ scenarios, (s, "api") ∈ harnessRuns ∧ (s, "template") ∈ harnessRuns) := by
  refine ⟨by decide, by decide, ?_⟩
  intro s hs
  constructor <;> exact List.mem_flatMap.mpr ⟨s, hs, by simp⟩

/-- Witness for C5's universally quantified parts, at the `javascript`
language, the `nodejs10.x` runtime, and the first scenario. -/
theorem c5_scenario_matrix_coverage_witness :
    (∃ s ∈ scenarios, s.language = "javascript" ∧ s.baseImage = none) ∧
    (∃ s ∈ scenarios, s.runtime = "nodejs10.x") ∧
    (({ runtime := "nodejs10.x", displayName := "nodejs10.x (ZIP)",
        path := "hello-world/app.js", debugSessionType := "pwa-node",
        language := "javascript", dependencyManager := "npm" } : TestScenario), "api")
      ∈ harnessRuns :=
  ⟨(c5_scenario_matrix_coverage.1 "javascript" (by decide)).1,
    c5_scenario_matrix_coverage.2.1 "nodejs10.x" (by decide),
    (c5_scenario_matrix_coverage.2.2 _ (by decide)).1⟩

/-- Whenever `makeTypescriptConfig` returns a configuration, its launch
fields are as generated by lines 93-108. -/
theorem makeTypescriptConfig_ok_fields (env : Env)
    (config : SamLaunchRequestArgs) (c : NodejsDebugConfiguration)
    (h : makeTypescriptConfig env config = Except.ok c) :
    c.type = "node" ∧ c.protocol = "inspector" ∧ c.address = "localhost" ∧
    c.runtimeFamily = RuntimeFamily.NodeJS ∧ c.preLaunchTask = none ∧
    c.request = (if config.noDebug = some true then "launch" else "attach") ∧
    c.port = (match config.debugPort with | some p => (p : Int) | none => -1) ∧
    c.stopOnEntry = (match config.stopOnEntry with | none => false | some b => b) := by
  unfold makeTypescriptConfig at h
  split at h
  · exact absurd h (by simp)
  · split at h
    · exact absurd h (by simp)
    · simp only [Except.ok.injEq] at h
      subst h
      refine ⟨rfl, rfl, rfl, rfl, rfl, ?_, ?_, ?_⟩
      · cases hnd : config.noDebug with
        | none => simp
        | some b => cases b <;> simp
      · cases config.debugPort <;> simp
      · cases config.stopOnEntry <;> rfl

/-- C1: for every input config with `baseBuildDir` set and a resolvable
code root, `makeTypescriptConfig` returns (does not throw) a launch
configuration with `type = 'node'`, `protocol = 'inspector'`,
`address = 'localhost'`, `runtimeFamily = NodeJS`, `preLaunchTask`
undefined, `request` equal to `'launch'` when `noDebug` is true and
`'attach'` otherwise, `port` equal to `debugPort` when defined and `-1`
otherwise, and `stopOnEntry` equal to `false` when `config.stopOnEntry`
is undefined and to its boolean coercion otherwise. -/
theorem c1_makeTypescriptConfig_launch_fields (env : Env)
    (config : SamLaunchRequestArgs)
    (hb : strTruthy config.baseBuildDir = true)
    (hc : ∃ r, resolveCodeRoot env config = Except.ok r) :
    match makeTypescriptConfig env config with
    | .ok c =>
        c.type = "node" ∧ c.protocol = "inspector" ∧ c.address = "localhost" ∧
        c.runtimeFamily = RuntimeFamily.NodeJS ∧ c.preLaunchTask = none ∧
        c.request = (if config.noDebug = some true then "launch" else "attach") ∧
        c.port = (match config.debugPort with | some p => (p : Int) | none => -1) ∧
        c.stopOnEntry = (match config.stopOnEntry with | none => false | some b => b)
    | .error _ => False := by
  obtain ⟨r, hr⟩ := hc
  have hok : ∃ c, makeTypescriptConfig env config = Except.ok c := by
    unfold makeTypescriptConfig
    rw [if_neg (by rw [hb]; decide), hr]
    exact ⟨_, rfl⟩
  obtain ⟨c, hc'⟩ := hok
  rw [hc']
  exact makeTypescriptConfig_ok_fields env config c hc'

/-- Witness for C1 at `sampleEnv` and `sampleConfig`. -/
theorem c1_makeTypescriptConfig_launch_fields_witness :
    match makeTypescriptConfig sampleEnv sampleConfig with
    | .ok c =>
        c.type = "node" ∧ c.protocol = "inspector" ∧ c.address = "localhost" ∧
        c.runtimeFamily = RuntimeFamily.NodeJS ∧ c.preLaunchTask = none ∧
        c.request = (if sampleConfig.noDebug = some true then "launch" else "attach") ∧
        c.port = (match sampleConfig.debugPort with | some p => (p : Int) | none => -1) ∧
        c.stopOnEntry =
          (match sampleConfig.stopOnEntry with | none => false | some b => b)
    | .error _ => False :=
  c1_makeTypescriptConfig_launch_fields sampleEnv sampleConfig (by rfl)
    ⟨"/work/app", by rfl⟩

/-- C8: when `config.baseBuildDir` is unset (undefined or the empty
string), `makeTypescriptConfig` fails with
`invalid state: config.baseBuildDir was not set`, and the result does
not depend on the environment (the check precedes every other action of
the function, so no discovery, template generation, or file creation
happens on this path; the model has no mutable state, matching the
claim that the input config is unchanged). -/
theorem c8_makeTypescriptConfig_unset_baseBuildDir (env : Env)
    (config : SamLaunchRequestArgs)
    (h : config.baseBuildDir = none ∨ config.baseBuildDir = some "") :
    makeTypescriptConfig env config =
      Except.error "invalid state: config.baseBuildDir was not set" := by
  have ht : strTruthy config.baseBuildDir = false := by
    rcases h with h | h <;> rw [h] <;> rfl
  unfold makeTypescriptConfig
  rw [ht]
  rfl

/-- Witness for C8 at `sampleEnv` and a configuration with no
`baseBuildDir`. -/
theorem c8_makeTypescriptConfig_unset_baseBuildDir_witness :
    makeTypescriptConfig sampleEnv { invokeTarget := { target := "code" } } =
      Except.error "invalid state: config.baseBuildDir was not set" :=
  c8_makeTypescriptConfig_unset_baseBuildDir sampleEnv
    { invokeTarget := { target := "code" } } (Or.inl rfl)

/-- C4: in the configuration returned by `makeTypescriptConfig`, when
`config.lambda.pathMappings` is defined and non-empty, `localRoot` and
`remoteRoot` come from its first entry (further entries are ignored;
the code only logs a warning when there is more than one); otherwise,
when `codeRoot` was set on the input, `localRoot` is the normalized
`config.codeRoot` and `remoteRoot` is `/var/task`. -/
theorem c4_makeTypescriptConfig_roots (env : Env)
    (config : SamLaunchRequestArgs) (c : NodejsDebugConfiguration)
    (h : makeTypescriptConfig env config = Except.ok c) :
    (∀ m ms, pathMappingsOf config = some (m :: ms) →
      c.localRoot = m.localRoot ∧ c.remoteRoot = m.remoteRoot) ∧
    ((pathMappingsOf config = none ∨ pathMappingsOf config = some []) →
      strTruthy config.codeRoot = true →
      c.localRoot = env.normalize (config.codeRoot.getD "") ∧
      c.remoteRoot = "/var/task") := by
  unfold makeTypescriptConfig at h
  split at h
  · exact absurd h (by simp)
  · split at h
    · exact absurd h (by simp)
    · rename_i codeRoot0 heq
      simp only [Except.ok.injEq] at h
      subst h
      constructor
      · intro m ms hm
        have hf : firstPathMapping config = some m := by
          rw [firstPathMapping_eq, hm]
        simp [hf]
      · intro hnone htr
        have hf : firstPathMapping config = none := by
          rw [firstPathMapping_eq]
          rcases hnone with h' | h' <;> rw [h']
        have hcr : codeRoot0 = config.codeRoot.getD "" := by
          unfold resolveCodeRoot at heq
          rw [if_pos htr] at heq
          simpa using heq.symm
        simp [hf, hcr]

/-- Witness for C4 at `sampleEnv` and `sampleMappedConfig`, whose two
path mappings make the result take the first entry. -/
theorem c4_makeTypescriptConfig_roots_witness :
    sampleMappedOut.localRoot =
      ({ localRoot := "/work/mapped", remoteRoot := "/var/mapped" } : PathMapping).localRoot ∧
    sampleMappedOut.remoteRoot =
      ({ localRoot := "/work/mapped", remoteRoot := "/var/mapped" } : PathMapping).remoteRoot :=
  (c4_makeTypescriptConfig_roots sampleEnv sampleMappedConfig sampleMappedOut
    (by rfl)).1
    { localRoot := "/work/mapped", remoteRoot := "/var/mapped" }
    [{ localRoot := "/work/other", remoteRoot := "/var/other" }] (by rfl)

/-- C2: for a `target = 'code'` configuration whose code root listing
contains `tsconfig.json` or contains a TypeScript file somewhere below,
`compileTypeScript` writes the default tsconfig into
`<baseBuildDir>/output/awsToolkitSamLocalResource/tsconfig.json` and
runs `tsc --project <baseBuildDir>/output/awsToolkitSamLocalResource`;
when the write or the subprocess fails it throws
`Failed to compile typescript Lambda`. -/
theorem c2_compileTypeScript_compiles (writeOk tscOk : Bool) (fs : FsList)
    (config : NodejsDebugConfiguration)
    (htarget : config.invokeTarget.target = "code")
    (hts : (fsNames fs).contains "tsconfig.json" = true ∨
      hasTypeScriptFilesRecursive fs = true) :
    (writeOk = true ∧ tscOk = true →
      compileTypeScript writeOk tscOk fs config =
        (⟨some (pathJoin (pathJoin (pathJoin (config.baseBuildDir.getD "") "output")
              "awsToolkitSamLocalResource") "tsconfig.json", defaultTsconfigJson),
          some ("tsc --project " ++ pathJoin (pathJoin (config.baseBuildDir.getD "")
              "output") "awsToolkitSamLocalResource")⟩, Except.ok ())) ∧
    ((writeOk = false ∨ tscOk = false) →
      (compileTypeScript writeOk tscOk fs config).2 =
        Except.error "Failed to compile typescript Lambda") := by
  have hcond : ((fsNames fs).contains "tsconfig.json" ||
      hasTypeScriptFilesRecursive fs) = true := by
    rcases hts with h | h
    · rw [h, Bool.true_or]
    · rw [h, Bool.or_true]
  unfold compileTypeScript
  rw [htarget]
  rw [if_pos (by rfl : (("code" : String) == "code") = true), if_pos hcond]
  constructor
  · rintro ⟨rfl, rfl⟩
    rfl
  · rintro (rfl | rfl)
    · rfl
    · cases writeOk <;> rfl

/-- Witness for C2: a code-target config whose code root listing holds a
`tsconfig.json`, with both the write and the subprocess succeeding. -/
theorem c2_compileTypeScript_compiles_witness :
    compileTypeScript true true (FsList.cons (FsTree.file "tsconfig.json") FsList.nil)
        sampleOut =
      (⟨some (pathJoin (pathJoin (pathJoin (sampleOut.baseBuildDir.getD "") "output")
            "awsToolkitSamLocalResource") "tsconfig.json", defaultTsconfigJson),
        some ("tsc --project " ++ pathJoin (pathJoin (sampleOut.baseBuildDir.getD "")
            "output") "awsToolkitSamLocalResource")⟩, Except.ok ()) :=
  (c2_compileTypeScript_compiles true true
    (FsList.cons (FsTree.file "tsconfig.json") FsList.nil) sampleOut
    (by rfl) (Or.inl (by rfl))).1 ⟨rfl, rfl⟩

/-- C3: when the invoke target is not `code`, or the code root listing
has no `tsconfig.json` entry and no TypeScript file at any depth,
`compileTypeScript` performs no compile step: it writes nothing, runs no
subprocess, and returns without error (the model carries no mutable
config, matching the claim that the config is unchanged). -/
theorem c3_compileTypeScript_no_op (writeOk tscOk : Bool) (fs : FsList)
    (config : NodejsDebugConfiguration)
    (h : config.invokeTarget.target ≠ "code" ∨
      ((fsNames fs).contains "tsconfig.json" = false ∧
        hasTypeScriptFilesRecursive fs = false)) :
    compileTypeScript writeOk tscOk fs config = (⟨none, none⟩, Except.ok ()) := by
  unfold compileTypeScript
  rcases h with h | ⟨h1, h2⟩
  · rw [if_neg (by simpa using h)]
  · by_cases htar : (config.invokeTarget.target == "code") = true
    · rw [if_pos htar, if_neg (by rw [h1, h2]; decide)]
    · rw [if_neg htar]

/-- Witness for C3: a code-target config over a listing with only a
plain JavaScript file. -/
theorem c3_compileTypeScript_no_op_witness :
    compileTypeScript true true (FsList.cons (FsTree.file "app.js") FsList.nil)
        sampleOut = (⟨none, none⟩, Except.ok ()) :=
  c3_compileTypeScript_no_op true true
    (FsList.cons (FsTree.file "app.js") FsList.nil) sampleOut
    (Or.inr ⟨by rfl, by rfl⟩)

theorem find?_eq_some_split {α : Type} (p : α → Bool) (l : List α) (a : α)
    (h : l.find? p = some a) :
    ∃ pre post, l = pre ++ a :: post ∧ p a = true ∧ ∀ x ∈ pre, p x = false := by
  induction l with
  | nil => simp at h
  | cons b bs ih =>
    by_cases hb : p b = true
    · rw [List.find?_cons_of_pos bs hb] at h
      injection h with h
      subst h
      exact ⟨[], bs, rfl, hb, by simp⟩
    · rw [List.find?_cons_of_neg bs (by simpa using hb)] at h
      obtain ⟨pre, post, hl, hpa, hpre⟩ := ih h
      refine ⟨b :: pre, post, by rw [hl]; rfl, hpa, ?_⟩
      intro x hx
      rcases List.mem_cons.mp hx with rfl | hx'
      · simpa using hb
      · exact hpre x hx'

/-- C6: `getSamProjectDirPathForFile` returns the nearest parent
directory of the file that contains an entry named exactly
`package.json` (no nearer parent contains one), and it throws an error
whose message starts with `Cannot find package.json for:` exactly when
no parent directory contains such an entry. `findParentProjectFile` is
modelled from the spec; see its doc comment. -/
theorem c6_getSamProjectDirPathForFile_nearest (listing : List String → List String)
    (filePath : List String) :
    match getSamProjectDirPathForFile listing filePath with
    | .ok d => ∃ pre post, parentDirs filePath = pre ++ d :: post ∧
        (listing d).contains "package.json" = true ∧
        ∀ a ∈ pre, (listing a).contains "package.json" = false
    | .error msg => (∀ a ∈ parentDirs filePath,
          (listing a).contains "package.json" = false) ∧
        ∃ rest, msg = "Cannot find package.json for:" ++ rest := by
  unfold getSamProjectDirPathForFile findParentProjectFile
  cases hf : (parentDirs filePath).find?
      (fun d => (listing d).contains "package.json") with
  | none =>
    refine ⟨?_, " " ++ String.intercalate "/" filePath, ?_⟩
    · intro a ha
      simpa using List.find?_eq_none.mp hf a ha
    · rw [← String.append_assoc,
        show ("Cannot find package.json for:" ++ " " : String) =
          "Cannot find package.json for: " from by decide]
  | some d =>
    obtain ⟨pre, post, hl, hpa, hpre⟩ := find?_eq_some_split _ _ _ hf
    refine ⟨pre, post, ?_, ?_, ?_⟩
    · rw [List.dropLast_concat]
      exact hl
    · rw [List.dropLast_concat]
      exact hpa
    · exact hpre
